import Mathlib

/-!
# Wedding-Planning App — timeline protocol, shallow embedding

Shallow embedding of the timeline optimistic-concurrency editing core of the
wedding-planning web application, together with theorems checking the
natural-language specification against it.

Embedded source files:
* `src/lib/timeline/snapping.ts` — snap/clamp engine and `processEventTimes`
* `src/lib/timeline/history.ts` — undo/redo history stack
* `src/lib/timeline/draft.ts` — draft state and draft reducer
* `src/lib/time.ts` — `getTimelineWindow`
* `src/app/api/weddings/[weddingId]/timeline/route.ts` — reconciliation
  service (`PUT` handler, `applyPatchOp`, `getFullTimeline`)
* `src/hooks/useTimeline.ts` — session controller (`publish`)

Conventions:
* Instants are modelled as `Int` epoch milliseconds (the JS `Date.getTime()`
  value).  Zeroing the seconds/milliseconds fields of a civil clock reading
  is the same operation in every IANA zone (all modern offsets are whole
  minutes), namely subtracting `t mod 60000`.
* The database rows behind Prisma are modelled as Lean lists; throwing
  Prisma calls (`update`/`delete` on a missing row, unique-key violation,
  foreign-key violation) are modelled as `DbError` results.
-/

namespace WeddingApp

/-- One millisecond-count per minute. -/
def msPerMinute : Int := 60000

/-- `snapToMinute` from `src/lib/timeline/snapping.ts` (and the identical
`DateTime` version in `src/lib/time.ts`), at the default `snapMinutes = 1`
used everywhere in the repository.  The source reads the civil `minute`
field, computes `Math.round(minute / 1) * 1 = minute` (a no-op on the
minute), and zeroes the `second` and `millisecond` fields; on epoch
milliseconds that is exactly subtracting `t mod 60000`. -/
def snapToMinute (t : Int) : Int := t - t % 60000

/-- The snap operation as the specification words it ("round each instant to
the nearest minute boundary ... ties round up"); kept separate from
`snapToMinute` so the two can be compared. -/
def snapToMinuteSpec (t : Int) : Int := 60000 * ((t + 30000) / 60000)

/-- `ensureMinDuration` from `src/lib/timeline/snapping.ts`. -/
def ensureMinDuration (start endTime : Int) (minMinutes : Int := 1) : Int × Int :=
  if endTime - start < minMinutes * 60 * 1000 then
    (start, start + minMinutes * 60 * 1000)
  else
    (start, endTime)

/-- `clampToWindow` from `src/lib/timeline/snapping.ts`. -/
def clampToWindow (t windowStart windowEnd : Int) : Int :=
  if t < windowStart then windowStart
  else if windowEnd < t then windowEnd
  else t

/-- Result record of `processEventTimes` (`end` is a Lean keyword, so the
source's `end` field is called `endTime` here). -/
structure ProcessResult where
  start : Int
  endTime : Int
  valid : Bool
  error : Option String
deriving DecidableEq, Repr

/-- `processEventTimes` from `src/lib/timeline/snapping.ts`: snap both
instants to the minute, enforce the minimum duration, clamp into the
window, then validate `end > start`. -/
def processEventTimes (start endTime windowStart windowEnd : Int) : ProcessResult :=
  let snappedStart := snapToMinute start
  let snappedEnd := snapToMinute endTime
  let minned := ensureMinDuration snappedStart snappedEnd
  let clampedStart := clampToWindow minned.1 windowStart windowEnd
  let clampedEnd := clampToWindow minned.2 windowStart windowEnd
  if clampedEnd ≤ clampedStart then
    { start := clampedStart, endTime := clampedEnd, valid := false,
      error := some "Event end must be after start" }
  else
    { start := clampedStart, endTime := clampedEnd, valid := true, error := none }

/-! ## Time-Window Calculator (`getTimelineWindow`, `src/lib/time.ts`)

The source parses the wedding date in the venue zone with luxon, sets the
clock to 03:00, adds one civil day (same local clock on the next calendar
date), and converts both local readings to UTC.  Civil dates are mapped to
epoch-day numbers with the standard proleptic-Gregorian algorithm, and an
IANA zone is modelled as its offset (minutes east of UTC) as a function of
the local epoch day — the granularity the 03:00 instants need, since DST
transitions in the modelled zones happen at 02:00 local. -/

/-- Days since 1970-01-01 of the proleptic-Gregorian civil date `y-m-d`
(standard civil-from-days inverse algorithm). -/
def daysFromCivil (y m d : Int) : Int :=
  let yAdj := if m ≤ 2 then y - 1 else y
  let era := yAdj / 400
  let yoe := yAdj - era * 400
  let mp := (m + 9) % 12
  let doy := (153 * mp + 2) / 5 + d - 1
  let doe := yoe * 365 + yoe / 4 - yoe / 100 + doy
  era * 146097 + doe - 719468

/-- Modelled from the spec: the venue-timezone collaborator (luxon plus the
IANA database, consumed as a "pure time-conversion utility").
`America/New_York` during 2026: eastern daylight time (UTC-4, offset
`-240` minutes) from 2026-03-08 through 2026-10-31 local, eastern standard
time (UTC-5, offset `-300`) otherwise.  The argument is the local epoch
day; the instants this development evaluates are at 03:00 local, away from
the 02:00 transition instants. -/
def americaNewYorkOffsetMin (localDay : Int) : Int :=
  if daysFromCivil 2026 3 8 ≤ localDay ∧ localDay < daysFromCivil 2026 11 1 then
    -240
  else
    -300

/-- `getTimelineWindow` from `src/lib/time.ts`: 03:00 local on the wedding
date through 03:00 local on the next civil date, both returned as UTC epoch
milliseconds.  `zoneOffsetMin` is the venue-timezone collaborator. -/
def getTimelineWindow (zoneOffsetMin : Int → Int) (y m d : Int) : Int × Int :=
  let startDay := daysFromCivil y m d
  let localThreeAmToUtc := fun (day : Int) =>
    day * 86400000 + 3 * 3600000 - zoneOffsetMin day * 60000
  (localThreeAmToUtc startDay, localThreeAmToUtc (startDay + 1))

/-- UTC epoch milliseconds of `y-m-d hour:00:00Z`; used to state concrete
instants readably. -/
def utcMs (y m d hour : Int) : Int :=
  daysFromCivil y m d * 86400000 + hour * 3600000

/-! ## Patch-operation model (`src/types/timeline.ts`)

Runtime shapes follow the JSON the API actually exchanges: the `GET`
handler maps lanes with a `laneType` string field and events with
`assignedOwner` as a display-name string (`assignedOwnerName || null`), and
the `PUT` handler reads exactly those fields back
(`lane.laneType`, `event.assignedOwner || "Couple"`,
`op.owner` stored into `assignedOwnerName`).  Fields the route guards with
`|| default` are modelled as `Option`; `locationLat`/`locationLng` are
inert floating-point payload absent from the Prisma schema and are
elided. -/

/-- `OwnerRef` from `src/types/timeline.ts`. -/
structure OwnerRef where
  id : String
  type : String
  displayName : String
deriving DecidableEq, Repr

/-- `TimelineEventItem` — the client-side event shape carried by
`create_event` ops and by the draft reducer. -/
structure TimelineEventItem where
  id : String
  title : String
  startUtc : Int
  endUtc : Int
  laneId : String
  category : Option String
  assignedOwner : Option String
  status : Option String
  locked : Bool
  notes : Option String
deriving DecidableEq, Repr

/-- `TimelineLane` — the client-side lane shape carried by `create_lane`
ops (runtime field `laneType`, as produced by the `GET` mapping and read by
the `PUT` handler). -/
structure TimelineLane where
  id : String
  name : String
  laneType : String
  owner : Option OwnerRef
  sortOrder : Int
deriving DecidableEq, Repr

/-- `PatchOp` tagged union from `src/types/timeline.ts`. -/
inductive PatchOp where
  | create_event (event : TimelineEventItem)
  | update_event_time (eventId : String) (startUtc endUtc : Int)
  | update_event_lane (eventId : String) (laneId : String)
  | update_event_title (eventId : String) (title : String)
  | update_event_owner (eventId : String) (owner : String)
  | delete_event (eventId : String)
  | create_lane (lane : TimelineLane)
  | update_lane (laneId : String) (name : Option String) (owner : Option OwnerRef)
      (sortOrder : Option Int)
  | delete_lane (laneId : String)
deriving DecidableEq, Repr

/-! ## Canonical state and the Reconciliation Service
(`src/app/api/weddings/[weddingId]/timeline/route.ts`) -/

/-- A `TimelineEvent` row of the Prisma schema
(`prisma/migrations/20260101204939_init/migration.sql`). -/
structure ServerEvent where
  id : String
  weddingId : String
  laneId : String
  title : String
  startUtc : Int
  endUtc : Int
  category : String
  assignedOwnerType : String
  assignedOwnerId : String
  assignedOwnerName : String
  status : String
  locked : Bool
  notes : Option String
deriving DecidableEq, Repr

/-- A `TimelineLane` row of the Prisma schema. -/
structure ServerLane where
  id : String
  weddingId : String
  name : String
  type : String
  ownerType : String
  ownerId : String
  ownerName : String
  sortOrder : Int
deriving DecidableEq, Repr

/-- The canonical per-wedding state held by the service: the `Wedding` row
(version counter, wedding date) plus its lane and event rows.  The venue
timezone is passed separately as the zone-offset collaborator. -/
structure Wedding where
  id : String
  weddingDate : Int × Int × Int
  timelineVersion : Int
  lanes : List ServerLane
  events : List ServerEvent
deriving DecidableEq, Repr

/-- Errors thrown by the Prisma calls the route makes: `create` on an
existing primary key, `update`/`delete` on a missing row, and an insert or
update violating the `laneId` foreign key (SQLite enforces it; the
`TimelineEvent_laneId_fkey` constraint is in the migration). -/
inductive DbError where
  | uniqueViolation
  | recordNotFound
  | fkViolation
deriving DecidableEq, Repr

/-- `applyPatchOp` from the route.  Returns the database state after the
call — on a thrown error (`some err`) the state still contains every write
issued before the throw, exactly as the sequential Prisma calls leave the
database (no transaction wraps them). -/
def applyPatchOp (weddingId : String) (op : PatchOp) (windowStart windowEnd : Int)
    (events : List ServerEvent) (lanes : List ServerLane) :
    Option DbError × List ServerEvent × List ServerLane :=
  match op with
  | .create_event ev =>
      -- clamp (one-sided, as in the source) then zero seconds/milliseconds
      let start := snapToMinute (if ev.startUtc < windowStart then windowStart else ev.startUtc)
      let endT := snapToMinute (if windowEnd < ev.endUtc then windowEnd else ev.endUtc)
      if events.any (fun e => e.id = ev.id) then
        (some .uniqueViolation, events, lanes)
      else if lanes.any (fun l => l.id = ev.laneId) then
        (none,
         events ++ [{ id := ev.id, weddingId := weddingId, laneId := ev.laneId,
                      title := ev.title, startUtc := start, endUtc := endT,
                      category := ev.category.getD "misc",
                      assignedOwnerType := "couple", assignedOwnerId := "system",
                      assignedOwnerName := ev.assignedOwner.getD "Couple",
                      status := ev.status.getD "tentative", locked := ev.locked,
                      notes := ev.notes }],
         lanes)
      else
        (some .fkViolation, events, lanes)
  | .update_event_time eventId startUtc endUtc =>
      let start := snapToMinute (if startUtc < windowStart then windowStart else startUtc)
      let endT := snapToMinute (if windowEnd < endUtc then windowEnd else endUtc)
      if events.any (fun e => e.id = eventId) then
        (none,
         events.map (fun e =>
           if e.id = eventId then { e with startUtc := start, endUtc := endT } else e),
         lanes)
      else
        (some .recordNotFound, events, lanes)
  | .update_event_lane eventId laneId =>
      if events.any (fun e => e.id = eventId) then
        if lanes.any (fun l => l.id = laneId) then
          (none,
           events.map (fun e => if e.id = eventId then { e with laneId := laneId } else e),
           lanes)
        else
          (some .fkViolation, events, lanes)
      else
        (some .recordNotFound, events, lanes)
  | .update_event_title eventId title =>
      if events.any (fun e => e.id = eventId) then
        (none,
         events.map (fun e => if e.id = eventId then { e with title := title } else e),
         lanes)
      else
        (some .recordNotFound, events, lanes)
  | .update_event_owner eventId owner =>
      if events.any (fun e => e.id = eventId) then
        (none,
         events.map (fun e =>
           if e.id = eventId then { e with assignedOwnerName := owner } else e),
         lanes)
      else
        (some .recordNotFound, events, lanes)
  | .delete_event eventId =>
      if events.any (fun e => e.id = eventId) then
        (none, events.filter (fun e => e.id ≠ eventId), lanes)
      else
        (some .recordNotFound, events, lanes)
  | .create_lane lane =>
      if lanes.any (fun l => l.id = lane.id) then
        (some .uniqueViolation, events, lanes)
      else
        (none, events,
         lanes ++ [{ id := lane.id, weddingId := weddingId, name := lane.name,
                     type := lane.laneType,
                     ownerType := (lane.owner.map (fun o => o.type)).getD "couple",
                     ownerId := (lane.owner.map (fun o => o.id)).getD "system",
                     ownerName := (lane.owner.map (fun o => o.displayName)).getD "Couple",
                     sortOrder := lane.sortOrder }])
  | .update_lane laneId name owner sortOrder =>
      if lanes.any (fun l => l.id = laneId) then
        (none, events,
         lanes.map (fun l =>
           if l.id = laneId then
             { l with
               name := name.getD l.name,
               sortOrder := sortOrder.getD l.sortOrder,
               ownerType := (owner.map (fun o => o.type)).getD l.ownerType,
               ownerId := (owner.map (fun o => o.id)).getD l.ownerId,
               ownerName := (owner.map (fun o => o.displayName)).getD l.ownerName }
           else l))
      else
        (some .recordNotFound, events, lanes)
  | .delete_lane laneId =>
      -- `deleteMany` of the lane's events runs (and persists) first
      let remaining := events.filter (fun e => e.laneId ≠ laneId)
      if lanes.any (fun l => l.id = laneId) then
        (none, remaining, lanes.filter (fun l => l.id ≠ laneId))
      else
        (some .recordNotFound, remaining, lanes)

/-- The `for (const op of patchOps)` loop of the `PUT` handler: the first
thrown error aborts the loop, keeping every earlier write. -/
def applyOps (weddingId : String) (ops : List PatchOp) (windowStart windowEnd : Int)
    (events : List ServerEvent) (lanes : List ServerLane) :
    Option DbError × List ServerEvent × List ServerLane :=
  match ops with
  | [] => (none, events, lanes)
  | op :: rest =>
      match applyPatchOp weddingId op windowStart windowEnd events lanes with
      | (some err, events2, lanes2) => (some err, events2, lanes2)
      | (none, events2, lanes2) => applyOps weddingId rest windowStart windowEnd events2 lanes2

/-- The snapshot shape built by `getFullTimeline` in the route. -/
structure TimelineSnapshot where
  version : Int
  windowStartUtc : Int
  windowEndUtc : Int
  lanes : List ServerLane
  events : List ServerEvent
deriving DecidableEq, Repr

/-- `getFullTimeline` from the route: current version, window bounds, lanes
ordered by `sortOrder`, events ordered by `startUtc` (the Prisma `orderBy`
clauses, modelled as a stable insertion sort). -/
def getFullTimeline (zoneOffsetMin : Int → Int) (w : Wedding) : TimelineSnapshot :=
  let window := getTimelineWindow zoneOffsetMin w.weddingDate.1 w.weddingDate.2.1 w.weddingDate.2.2
  { version := w.timelineVersion,
    windowStartUtc := window.1,
    windowEndUtc := window.2,
    lanes := List.insertionSort (fun a b => a.sortOrder ≤ b.sortOrder) w.lanes,
    events := List.insertionSort (fun a b => a.startUtc ≤ b.startUtc) w.events }

/-- Outcome of the `PUT` handler: `conflict` is the 409 response carrying
the current version and snapshot, `serverError` is the catch-all 500 (any
thrown Prisma error lands there), `ok` is the 200 with the fresh
snapshot.  The wedding-not-found 404 is outside this model, which takes the
wedding row as input. -/
inductive PutResult where
  | conflict (currentVersion : Int) (current : TimelineSnapshot)
  | serverError
  | ok (snapshot : TimelineSnapshot)
deriving DecidableEq, Repr

/-- The `PUT` handler from the route: version check, then the op loop, then
the version increment and fresh snapshot.  Returns the response together
with the database state after the request. -/
def put (zoneOffsetMin : Int → Int) (w : Wedding) (baseVersion : Int)
    (patchOps : List PatchOp) : PutResult × Wedding :=
  if w.timelineVersion ≠ baseVersion then
    (.conflict w.timelineVersion (getFullTimeline zoneOffsetMin w), w)
  else
    let window := getTimelineWindow zoneOffsetMin w.weddingDate.1 w.weddingDate.2.1 w.weddingDate.2.2
    match applyOps w.id patchOps window.1 window.2 w.events w.lanes with
    | (some _, events2, lanes2) =>
        (.serverError, { w with events := events2, lanes := lanes2 })
    | (none, events2, lanes2) =>
        let w2 := { w with events := events2, lanes := lanes2,
                           timelineVersion := w.timelineVersion + 1 }
        (.ok (getFullTimeline zoneOffsetMin w2), w2)

/-! ## Draft state and reducer (`src/lib/timeline/draft.ts`) -/

/-- `DraftState` from `src/lib/timeline/draft.ts`. -/
structure DraftState where
  baseVersion : Int
  patchOps : List PatchOp
  isDirty : Bool
deriving DecidableEq, Repr

/-- `createDraftState`. -/
def createDraftState (baseVersion : Int) : DraftState :=
  { baseVersion := baseVersion, patchOps := [], isDirty := false }

/-- `addPatchOp`. -/
def addPatchOp (draft : DraftState) (op : PatchOp) : DraftState :=
  { draft with patchOps := draft.patchOps ++ [op], isDirty := true }

/-- `clearDraft`. -/
def clearDraft (draft : DraftState) : DraftState :=
  { draft with patchOps := [], isDirty := false }

/-- `resetDraft`. -/
def resetDraft (newBaseVersion : Int) : DraftState :=
  createDraftState newBaseVersion

/-- One iteration of the `applyDraftToEvents` loop: the `switch` on the op
tag (lane ops fall through and leave the events unchanged). -/
def applyDraftOpToEvents (events : List TimelineEventItem) (op : PatchOp) :
    List TimelineEventItem :=
  match op with
  | .create_event ev => events ++ [ev]
  | .update_event_time eventId startUtc endUtc =>
      events.map (fun e =>
        if e.id = eventId then { e with startUtc := startUtc, endUtc := endUtc } else e)
  | .update_event_lane eventId laneId =>
      events.map (fun e => if e.id = eventId then { e with laneId := laneId } else e)
  | .update_event_title eventId title =>
      events.map (fun e => if e.id = eventId then { e with title := title } else e)
  | .update_event_owner eventId owner =>
      events.map (fun e => if e.id = eventId then { e with assignedOwner := some owner } else e)
  | .delete_event eventId => events.filter (fun e => e.id ≠ eventId)
  | _ => events

/-- `applyDraftToEvents` from `src/lib/timeline/draft.ts`: fold of the op
list over the base events, for the optimistic preview. -/
def applyDraftToEvents (events : List TimelineEventItem) (patchOps : List PatchOp) :
    List TimelineEventItem :=
  patchOps.foldl applyDraftOpToEvents events

/-- One iteration of the `applyDraftToLanes` loop. -/
def applyDraftOpToLanes (lanes : List TimelineLane) (op : PatchOp) : List TimelineLane :=
  match op with
  | .create_lane lane => lanes ++ [lane]
  | .update_lane laneId name owner sortOrder =>
      lanes.map (fun l =>
        if l.id = laneId then
          { l with
            name := name.getD l.name,
            sortOrder := sortOrder.getD l.sortOrder,
            owner := match owner with
              | some o => some o
              | none => l.owner }
        else l)
  | .delete_lane laneId => lanes.filter (fun l => l.id ≠ laneId)
  | _ => lanes

/-- `applyDraftToLanes` from `src/lib/timeline/draft.ts`. -/
def applyDraftToLanes (lanes : List TimelineLane) (patchOps : List PatchOp) :
    List TimelineLane :=
  patchOps.foldl applyDraftOpToLanes lanes

/-! ## History stack (`src/lib/timeline/history.ts`)

JS array orientation is kept: `past` has its newest batch at the end,
`future` has its next-redoable batch at the front. -/

/-- `HistoryState` from `src/lib/timeline/history.ts`. -/
structure HistoryState where
  past : List (List PatchOp)
  future : List (List PatchOp)
  maxSize : Nat
deriving DecidableEq, Repr

/-- `createHistory` (default depth 50). -/
def createHistory (maxSize : Nat := 50) : HistoryState :=
  { past := [], future := [], maxSize := maxSize }

/-- `recordAction`: append the batch, clear `future`, and trim from the
front while over capacity (the `while (newPast.length > maxSize)
newPast.shift()` loop drops exactly `newPast.length - maxSize` oldest
entries). -/
def recordAction (history : HistoryState) (patchOps : List PatchOp) : HistoryState :=
  let newPast := history.past ++ [patchOps]
  { history with
    past := newPast.drop (newPast.length - history.maxSize),
    future := [] }

/-- `undo`: pop the newest batch off `past` onto the front of `future` and
return it; a no-op returning `none` when `past` is empty. -/
def undo (history : HistoryState) : HistoryState × Option (List PatchOp) :=
  match history.past.getLast? with
  | none => (history, none)
  | some lastAction =>
      ({ history with
         past := history.past.dropLast,
         future := lastAction :: history.future },
       some lastAction)

/-- `redo`: move the front batch of `future` back onto `past` and return
it; a no-op returning `none` when `future` is empty. -/
def redo (history : HistoryState) : HistoryState × Option (List PatchOp) :=
  match history.future with
  | [] => (history, none)
  | nextAction :: rest =>
      ({ history with past := history.past ++ [nextAction], future := rest },
       some nextAction)

/-- `canUndo`. -/
def canUndo (history : HistoryState) : Bool := 0 < history.past.length

/-- `canRedo`. -/
def canRedo (history : HistoryState) : Bool := 0 < history.future.length

/-- `clearHistory`. -/
def clearHistory (history : HistoryState) : HistoryState :=
  { history with past := [], future := [] }

/-! ## Session controller (`src/hooks/useTimeline.ts`) -/

/-- The client-side `TimelineState` held by the hook (bands elided: they are
read-only decoration never touched by the protocol). -/
structure ClientTimeline where
  version : Int
  windowStartUtc : Int
  windowEndUtc : Int
  lanes : List TimelineLane
  events : List TimelineEventItem
deriving DecidableEq, Repr

/-- Outcome of the `PUT` fetch as seen by the hook: a 409 with the current
version, a 200 with the fresh snapshot, or a network/5xx failure. -/
inductive FetchResult where
  | conflict (currentVersion : Int)
  | ok (data : ClientTimeline)
  | failed
deriving Repr

/-- The mutable state of one `useTimeline` session. -/
structure SessionState where
  timeline : Option ClientTimeline
  draft : DraftState
  history : HistoryState
  error : Option String
deriving Repr

/-- `publish` from `src/hooks/useTimeline.ts`.  `server` stands for the
`fetch` transport; the clean-draft early return does not invoke it. -/
def publish (server : Int → List PatchOp → FetchResult) (s : SessionState) :
    Bool × SessionState :=
  if !s.draft.isDirty || s.draft.patchOps.isEmpty then
    (true, s)
  else
    match server s.draft.baseVersion s.draft.patchOps with
    | .conflict currentVersion =>
        (false,
         { s with error := some ("Timeline was updated by someone else. Your version: "
             ++ toString s.draft.baseVersion ++ ", Current: " ++ toString currentVersion) })
    | .ok data =>
        (true,
         { timeline := some data, draft := resetDraft data.version,
           history := clearHistory s.history, error := none })
    | .failed =>
        (false, { s with error := some "Failed to publish changes" })

/-! ## Theorems -/

/-- C3 (counterexample): `snapToMinute` does not round to the nearest
minute with half-minute ties rounding up.  At `t = 90000` ms
(`00:01:30.000`, an exact half-minute tie) the claimed behaviour gives the
following minute `120000`, but the code yields `60000` — it truncates. -/
theorem snapToMinute_not_nearest_cex :
    snapToMinute 90000 = 60000 ∧ snapToMinuteSpec 90000 = 120000 ∧
    snapToMinute 90000 ≠ snapToMinuteSpec 90000 := by
  decide

/-- C3 (amended): at the default 1-minute snap, `snapToMinute` truncates
every instant down to the start of its minute — it zeroes the seconds and
sub-seconds, yielding the greatest minute boundary not exceeding `t`; an
instant exactly 30 seconds past a minute therefore stays at that minute
rather than moving up. -/
theorem snapToMinute_floors (t : Int) :
    snapToMinute t = 60000 * (t / 60000) ∧
    (60000 : Int) ∣ snapToMinute t ∧
    snapToMinute t ≤ t ∧ t < snapToMinute t + 60000 ∧
    (∀ m : Int, snapToMinute (60000 * m + 30000) = 60000 * m) := by
  refine ⟨?_, ?_, ?_, ?_, fun m => ?_⟩ <;> unfold snapToMinute <;> omega

/-- C4: for minute-aligned window bounds at least one minute apart, a valid
`processEventTimes` result is minute-aligned, at least one minute long and
inside the window; a collapsed interval is reported invalid with an error
message rather than silently dropped. -/
theorem processEventTimes_valid_bounds (s e ws we : Int)
    (hws : (60000 : Int) ∣ ws) (hwe : (60000 : Int) ∣ we)
    (hspan : ws + 60000 ≤ we) :
    ((processEventTimes s e ws we).valid = true →
      (60000 : Int) ∣ (processEventTimes s e ws we).start ∧
      (60000 : Int) ∣ (processEventTimes s e ws we).endTime ∧
      60000 ≤ (processEventTimes s e ws we).endTime - (processEventTimes s e ws we).start ∧
      ws ≤ (processEventTimes s e ws we).start ∧
      (processEventTimes s e ws we).start ≤ we ∧
      ws ≤ (processEventTimes s e ws we).endTime ∧
      (processEventTimes s e ws we).endTime ≤ we) ∧
    ((processEventTimes s e ws we).endTime ≤ (processEventTimes s e ws we).start →
      (processEventTimes s e ws we).valid = false ∧
      (processEventTimes s e ws we).error.isSome = true) := by
  simp only [processEventTimes, ensureMinDuration, clampToWindow, snapToMinute]
  split_ifs <;> simp_all <;> omega

/-- C4 (witness): a concrete run through the pipeline — candidate
`(7000, 9000)` in the window `[0, 120000]` snaps to `(0, 0)`, is pushed to
the one-minute duration `(0, 60000)`, and is reported valid. -/
theorem processEventTimes_valid_bounds_witness :
    ((60000 : Int) ∣ 0 ∧ (60000 : Int) ∣ 120000 ∧ (0 : Int) + 60000 ≤ 120000) ∧
    ((processEventTimes 7000 9000 0 120000).valid = true →
      (60000 : Int) ∣ (processEventTimes 7000 9000 0 120000).start ∧
      (60000 : Int) ∣ (processEventTimes 7000 9000 0 120000).endTime ∧
      60000 ≤ (processEventTimes 7000 9000 0 120000).endTime -
        (processEventTimes 7000 9000 0 120000).start ∧
      (0 : Int) ≤ (processEventTimes 7000 9000 0 120000).start ∧
      (processEventTimes 7000 9000 0 120000).start ≤ 120000 ∧
      (0 : Int) ≤ (processEventTimes 7000 9000 0 120000).endTime ∧
      (processEventTimes 7000 9000 0 120000).endTime ≤ 120000) ∧
    ((processEventTimes 7000 9000 0 120000).endTime ≤
        (processEventTimes 7000 9000 0 120000).start →
      (processEventTimes 7000 9000 0 120000).valid = false ∧
      (processEventTimes 7000 9000 0 120000).error.isSome = true) := by
  refine ⟨⟨by decide, by decide, by decide⟩, ?_⟩
  exact processEventTimes_valid_bounds 7000 9000 0 120000 (by decide) (by decide) (by decide)

/-- C9: the editing window for wedding date 2026-10-17 in
`America/New_York` runs from 2026-10-17T07:00:00Z (03:00 EDT) to
2026-10-18T07:00:00Z. -/
theorem getTimelineWindow_ny_concrete :
    getTimelineWindow americaNewYorkOffsetMin 2026 10 17 =
      (utcMs 2026 10 17 7, utcMs 2026 10 18 7) := by
  decide

/-- C7: `recordAction` always leaves the redo (`future`) stack empty, and
when `past` is non-empty (its newest batch being `b`), `undo` returns `b`,
moves it to the front of `future`, and `redo` on the resulting state
returns the same batch and restores exactly the original history state. -/
theorem history_undo_redo_symmetry (h : HistoryState) (ops b : List PatchOp) :
    (recordAction h ops).future = [] ∧
    (h.past.getLast? = some b →
      (undo h).2 = some b ∧
      (undo h).1.past = h.past.dropLast ∧
      (undo h).1.future = b :: h.future ∧
      redo (undo h).1 = (h, some b)) := by
  refine ⟨rfl, fun hb => ?_⟩
  have hne : h.past ≠ [] := by
    intro hnil
    rw [hnil] at hb
    exact Option.noConfusion hb
  have hlast : h.past.getLast hne = b := by
    rw [List.getLast?_eq_getLast _ hne] at hb
    exact Option.some.inj hb
  have hconcat : h.past.dropLast ++ [b] = h.past := by
    rw [← hlast]
    exact List.dropLast_append_getLast hne
  refine ⟨?_, ?_, ?_, ?_⟩ <;> simp only [undo, hb, redo, hconcat]

/-- C7 (witness): the symmetry at a one-batch history. -/
theorem history_undo_redo_symmetry_witness :
    (HistoryState.past ⟨[[PatchOp.delete_event "a"]], [], 50⟩).getLast? =
        some [PatchOp.delete_event "a"] ∧
    (recordAction ⟨[[PatchOp.delete_event "a"]], [], 50⟩ []).future = [] ∧
    (undo ⟨[[PatchOp.delete_event "a"]], [], 50⟩).2 = some [PatchOp.delete_event "a"] ∧
    (undo ⟨[[PatchOp.delete_event "a"]], [], 50⟩).1.past =
      (HistoryState.past ⟨[[PatchOp.delete_event "a"]], [], 50⟩).dropLast ∧
    (undo ⟨[[PatchOp.delete_event "a"]], [], 50⟩).1.future =
      [PatchOp.delete_event "a"] :: [] ∧
    redo (undo ⟨[[PatchOp.delete_event "a"]], [], 50⟩).1 =
      (⟨[[PatchOp.delete_event "a"]], [], 50⟩, some [PatchOp.delete_event "a"]) := by
  have hb : (HistoryState.past ⟨[[PatchOp.delete_event "a"]], [], 50⟩).getLast? =
      some [PatchOp.delete_event "a"] := by decide
  have hmain := history_undo_redo_symmetry ⟨[[PatchOp.delete_event "a"]], [], 50⟩ []
    [PatchOp.delete_event "a"]
  exact ⟨hb, hmain.1, (hmain.2 hb).1, (hmain.2 hb).2.1, (hmain.2 hb).2.2.1, (hmain.2 hb).2.2.2⟩

/-- C8 (counterexample): a history state whose `past` is within capacity
but where `redo` overflows it — `redo` never trims, so with
`maxSize = 1`, `past = [b₁]`, `future = [b₂]` the result has two past
batches.  (Such a state is unreachable through the API, which is what the
amended claim captures.) -/
theorem redo_exceeds_maxSize_cex :
    (HistoryState.past ⟨[[PatchOp.delete_event "a"]], [[PatchOp.delete_event "b"]], 1⟩).length ≤
        (HistoryState.maxSize ⟨[[PatchOp.delete_event "a"]], [[PatchOp.delete_event "b"]], 1⟩) ∧
    ¬ ((redo ⟨[[PatchOp.delete_event "a"]], [[PatchOp.delete_event "b"]], 1⟩).1.past.length ≤
        (HistoryState.maxSize ⟨[[PatchOp.delete_event "a"]], [[PatchOp.delete_event "b"]], 1⟩)) := by
  decide

/-- C8 (amended): the invariant actually preserved is
`past.length + future.length ≤ maxSize` (which holds for every state
reachable from `createHistory`, since `recordAction` clears `future`):
under it, `recordAction`, `undo`, `redo` and `clearHistory` all keep
`past.length + future.length` (hence `past.length`) within `maxSize`, and
when `past` is at capacity `recordAction` evicts the oldest batch from the
front. -/
theorem history_bounded_invariant (h : HistoryState) (ops : List PatchOp)
    (hinv : h.past.length + h.future.length ≤ h.maxSize) :
    (recordAction h ops).past.length + (recordAction h ops).future.length ≤ h.maxSize ∧
    (undo h).1.past.length + (undo h).1.future.length ≤ h.maxSize ∧
    (redo h).1.past.length + (redo h).1.future.length ≤ h.maxSize ∧
    (clearHistory h).past.length + (clearHistory h).future.length ≤ h.maxSize ∧
    (0 < h.maxSize → h.past.length = h.maxSize →
      (recordAction h ops).past = h.past.tail ++ [ops]) := by
  refine ⟨?_, ?_, ?_, ?_, ?_⟩
  · simp only [recordAction, List.length_drop, List.length_append, List.length_nil,
      List.length_cons]
    omega
  · rcases hcase : h.past.getLast? with _ | b
    · simp only [undo, hcase]
      exact hinv
    · have hne : h.past ≠ [] := by
        intro hnil
        rw [hnil] at hcase
        exact Option.noConfusion hcase
      have hpos : 0 < h.past.length := List.length_pos.mpr hne
      simp only [undo, hcase, List.length_dropLast, List.length_cons]
      omega
  · rcases hcase : h.future with _ | ⟨b, rest⟩
    · simp only [redo, hcase]
      simpa only [hcase, List.length_nil] using hinv
    · rw [hcase] at hinv
      simp only [redo, hcase, List.length_append, List.length_cons, List.length_nil]
      simp only [List.length_cons] at hinv
      omega
  · simpa only [clearHistory, List.length_nil] using Nat.zero_le _
  · intro hpos hfull
    have hlen : 1 ≤ h.past.length := by omega
    simp only [recordAction, List.length_append, List.length_cons, List.length_nil, hfull]
    rw [show h.maxSize + 1 - h.maxSize = 1 by omega,
      List.drop_append_of_le_length hlen, List.drop_one]

/-- C8 (witness): the amended invariant at a full one-slot history. -/
theorem history_bounded_invariant_witness :
    (HistoryState.past ⟨[[PatchOp.delete_event "a"]], [], 1⟩).length +
        (HistoryState.future ⟨[[PatchOp.delete_event "a"]], [], 1⟩).length ≤ 1 ∧
    ((recordAction ⟨[[PatchOp.delete_event "a"]], [], 1⟩ [PatchOp.delete_event "c"]).past.length +
        (recordAction ⟨[[PatchOp.delete_event "a"]], [], 1⟩ [PatchOp.delete_event "c"]).future.length ≤ 1 ∧
      (undo ⟨[[PatchOp.delete_event "a"]], [], 1⟩).1.past.length +
        (undo ⟨[[PatchOp.delete_event "a"]], [], 1⟩).1.future.length ≤ 1 ∧
      (redo ⟨[[PatchOp.delete_event "a"]], [], 1⟩).1.past.length +
        (redo ⟨[[PatchOp.delete_event "a"]], [], 1⟩).1.future.length ≤ 1 ∧
      (clearHistory ⟨[[PatchOp.delete_event "a"]], [], 1⟩).past.length +
        (clearHistory ⟨[[PatchOp.delete_event "a"]], [], 1⟩).future.length ≤ 1 ∧
      (0 < (1 : Nat) →
        (HistoryState.past ⟨[[PatchOp.delete_event "a"]], [], 1⟩).length = 1 →
        (recordAction ⟨[[PatchOp.delete_event "a"]], [], 1⟩ [PatchOp.delete_event "c"]).past =
          (HistoryState.past ⟨[[PatchOp.delete_event "a"]], [], 1⟩).tail
            ++ [[PatchOp.delete_event "c"]])) := by
  exact ⟨by decide,
    history_bounded_invariant ⟨[[PatchOp.delete_event "a"]], [], 1⟩
      [PatchOp.delete_event "c"] (by decide)⟩

/-- C10: publishing a clean draft (not dirty, or no pending ops) returns
`true` immediately and leaves the whole session state — timeline snapshot,
draft, history, error — unchanged; since the result holds for every
`server` transport, no network request is consulted. -/
theorem publish_clean_draft_noop (server : Int → List PatchOp → FetchResult)
    (s : SessionState) (hclean : s.draft.isDirty = false ∨ s.draft.patchOps = []) :
    publish server s = (true, s) := by
  rcases hclean with hc | hc <;> simp [publish, hc]

/-- C10 (witness): a freshly-created session state publishes as a no-op
even against a transport that would fail every request. -/
theorem publish_clean_draft_noop_witness :
    ((createDraftState 0).isDirty = false ∨ (createDraftState 0).patchOps = []) ∧
    publish (fun _ _ => FetchResult.failed)
        { timeline := none, draft := createDraftState 0,
          history := createHistory 50, error := none } =
      (true,
       { timeline := none, draft := createDraftState 0,
         history := createHistory 50, error := none }) := by
  exact ⟨Or.inl rfl,
    publish_clean_draft_noop (fun _ _ => FetchResult.failed) _ (Or.inl rfl)⟩

/-- C2: a publish whose `baseVersion` differs from the wedding's current
`timelineVersion` is rejected with the 409 conflict result carrying the
current version and the current canonical snapshot, and the canonical
state is returned unchanged. -/
theorem put_conflict_rejects_unchanged (zoneOffsetMin : Int → Int) (w : Wedding)
    (baseVersion : Int) (patchOps : List PatchOp)
    (hver : baseVersion ≠ w.timelineVersion) :
    put zoneOffsetMin w baseVersion patchOps =
      (.conflict w.timelineVersion (getFullTimeline zoneOffsetMin w), w) := by
  unfold put
  rw [if_pos (Ne.symm hver)]

/-- C2 (witness): the conflict scenario of the spec — canonical version 4,
publish attempted with stale `baseVersion` 3. -/
theorem put_conflict_rejects_unchanged_witness :
    (3 : Int) ≠ (Wedding.timelineVersion ⟨"w1", (2026, 10, 17), 4, [], []⟩) ∧
    put americaNewYorkOffsetMin ⟨"w1", (2026, 10, 17), 4, [], []⟩ 3 [] =
      (.conflict (Wedding.timelineVersion ⟨"w1", (2026, 10, 17), 4, [], []⟩)
        (getFullTimeline americaNewYorkOffsetMin ⟨"w1", (2026, 10, 17), 4, [], []⟩),
       ⟨"w1", (2026, 10, 17), 4, [], []⟩) := by
  exact ⟨by decide,
    put_conflict_rejects_unchanged americaNewYorkOffsetMin
      ⟨"w1", (2026, 10, 17), 4, [], []⟩ 3 [] (by decide)⟩

/-- C6: deleting a nonexistent event id is a silent no-op at the draft
layer (the filter removes nothing and no error is raised), while the
reconciliation service's `applyPatchOp` reports the missing record
(Prisma's record-not-found throw) and a publish consisting of that op
fails with the 500 error, leaving canonical state untouched. -/
theorem delete_event_draft_noop_service_notfound (zoneOffsetMin : Int → Int)
    (w : Wedding) (events : List TimelineEventItem) (deletedId : String)
    (hclient : ∀ e ∈ events, e.id ≠ deletedId)
    (hserver : ∀ e ∈ w.events, e.id ≠ deletedId) :
    applyDraftToEvents events [.delete_event deletedId] = events ∧
    (∀ windowStart windowEnd : Int,
      applyPatchOp w.id (.delete_event deletedId) windowStart windowEnd w.events w.lanes =
        (some .recordNotFound, w.events, w.lanes)) ∧
    put zoneOffsetMin w w.timelineVersion [.delete_event deletedId] = (.serverError, w) := by
  have hany : ∀ evs : List ServerEvent, (∀ e ∈ evs, e.id ≠ deletedId) →
      evs.any (fun e => e.id = deletedId) = false := by
    intro evs hevs
    simp only [List.any_eq_false, decide_eq_true_eq]
    exact hevs
  have happly : ∀ windowStart windowEnd : Int,
      applyPatchOp w.id (.delete_event deletedId) windowStart windowEnd w.events w.lanes =
        (some .recordNotFound, w.events, w.lanes) := by
    intro ws we
    simp only [applyPatchOp, hany w.events hserver, Bool.false_eq_true, if_false]
  refine ⟨?_, happly, ?_⟩
  · simp only [applyDraftToEvents, List.foldl_cons, List.foldl_nil, applyDraftOpToEvents]
    refine List.filter_eq_self.mpr ?_
    intro e he
    simpa using hclient e he
  · unfold put
    rw [if_neg (fun hh => hh rfl)]
    simp only [applyOps, happly]

/-- C6 (witness): the asymmetry at a concrete state with one event and one
lane, deleting unknown id `"ghost"`. -/
theorem delete_event_asymmetry_witness :
    (∀ e ∈ [TimelineEventItem.mk "e1" "Ceremony" 0 60000 "l1" none none none false none],
      e.id ≠ "ghost") ∧
    (∀ e ∈ (Wedding.events ⟨"w1", (2026, 10, 17), 3,
        [⟨"l1", "w1", "Main", "ceremony", "couple", "system", "Couple", 0⟩],
        [⟨"e1", "w1", "l1", "Ceremony", 0, 60000, "ceremony", "couple", "system",
          "Couple", "tentative", false, none⟩]⟩), e.id ≠ "ghost") ∧
    applyDraftToEvents [TimelineEventItem.mk "e1" "Ceremony" 0 60000 "l1" none none none false none]
        [.delete_event "ghost"] =
      [TimelineEventItem.mk "e1" "Ceremony" 0 60000 "l1" none none none false none] ∧
    put americaNewYorkOffsetMin
        ⟨"w1", (2026, 10, 17), 3,
          [⟨"l1", "w1", "Main", "ceremony", "couple", "system", "Couple", 0⟩],
          [⟨"e1", "w1", "l1", "Ceremony", 0, 60000, "ceremony", "couple", "system",
            "Couple", "tentative", false, none⟩]⟩
        3 [.delete_event "ghost"] =
      (.serverError,
       ⟨"w1", (2026, 10, 17), 3,
         [⟨"l1", "w1", "Main", "ceremony", "couple", "system", "Couple", 0⟩],
         [⟨"e1", "w1", "l1", "Ceremony", 0, 60000, "ceremony", "couple", "system",
           "Couple", "tentative", false, none⟩]⟩) := by
  have hmain := delete_event_draft_noop_service_notfound americaNewYorkOffsetMin
    ⟨"w1", (2026, 10, 17), 3,
      [⟨"l1", "w1", "Main", "ceremony", "couple", "system", "Couple", 0⟩],
      [⟨"e1", "w1", "l1", "Ceremony", 0, 60000, "ceremony", "couple", "system",
        "Couple", "tentative", false, none⟩]⟩
    [TimelineEventItem.mk "e1" "Ceremony" 0 60000 "l1" none none none false none]
    "ghost" (by decide) (by decide)
  exact ⟨by decide, by decide, hmain.1, hmain.2.2⟩

/-- C5 (counterexample): the reconciliation service never consults the
`locked` flag.  Editing the locked event `"e1"` through `applyPatchOp`
raises no error and rewrites its title, and the whole publish succeeds and
increments the version — the claim says such an edit is rejected and the
event left unchanged. -/
theorem locked_event_edit_applied_cex :
    (applyPatchOp "w1" (.update_event_title "e1" "New") 0 86400000
        [⟨"e1", "w1", "l1", "Old", 0, 60000, "misc", "couple", "system", "Couple",
          "tentative", true, none⟩] []).1 = none ∧
    (applyPatchOp "w1" (.update_event_title "e1" "New") 0 86400000
        [⟨"e1", "w1", "l1", "Old", 0, 60000, "misc", "couple", "system", "Couple",
          "tentative", true, none⟩] []).2.1 ≠
      [⟨"e1", "w1", "l1", "Old", 0, 60000, "misc", "couple", "system", "Couple",
        "tentative", true, none⟩] ∧
    (put americaNewYorkOffsetMin
        ⟨"w1", (2026, 10, 17), 3, [],
          [⟨"e1", "w1", "l1", "Old", 0, 60000, "misc", "couple", "system", "Couple",
            "tentative", true, none⟩]⟩
        3 [.update_event_title "e1" "New"]).2.timelineVersion = 4 ∧
    (put americaNewYorkOffsetMin
        ⟨"w1", (2026, 10, 17), 3, [],
          [⟨"e1", "w1", "l1", "Old", 0, 60000, "misc", "couple", "system", "Couple",
            "tentative", true, none⟩]⟩
        3 [.update_event_title "e1" "New"]).2.events =
      [⟨"e1", "w1", "l1", "New", 0, 60000, "misc", "couple", "system", "Couple",
        "tentative", true, none⟩] := by
  decide

/-- C5 (amended): the `locked` flag is stored and returned but not
enforced: a patch op editing a locked event is applied exactly as for an
unlocked one — `update_event_title` succeeds and rewrites the locked
event's title, and `delete_event` succeeds and removes it. -/
theorem locked_event_edits_not_rejected (weddingId eventId title : String)
    (windowStart windowEnd : Int) (events : List ServerEvent) (lanes : List ServerLane)
    (e : ServerEvent) (hmem : e ∈ events) (hid : e.id = eventId)
    (_hlocked : e.locked = true) :
    ((applyPatchOp weddingId (.update_event_title eventId title) windowStart windowEnd
        events lanes).1 = none ∧
     { e with title := title } ∈
       (applyPatchOp weddingId (.update_event_title eventId title) windowStart windowEnd
         events lanes).2.1) ∧
    ((applyPatchOp weddingId (.delete_event eventId) windowStart windowEnd
        events lanes).1 = none ∧
     e ∉ (applyPatchOp weddingId (.delete_event eventId) windowStart windowEnd
        events lanes).2.1) := by
  have hany : events.any (fun x => x.id = eventId) = true :=
    List.any_eq_true.mpr ⟨e, hmem, by simp [hid]⟩
  refine ⟨⟨?_, ?_⟩, ?_, ?_⟩
  · simp only [applyPatchOp, hany, if_true]
  · simp only [applyPatchOp, hany, if_true]
    exact List.mem_map.mpr ⟨e, hmem, by rw [if_pos hid]⟩
  · simp only [applyPatchOp, hany, if_true]
  · simp only [applyPatchOp, hany, if_true]
    intro hcontra
    have := (List.mem_filter.mp hcontra).2
    simp [hid] at this

/-- C5 (amended, witness): the locked event `"e1"` is edited and deleted
without any rejection. -/
theorem locked_event_edits_not_rejected_witness :
    ((ServerEvent.mk "e1" "w1" "l1" "Old" 0 60000 "misc" "couple" "system" "Couple"
        "tentative" true none) ∈
      [ServerEvent.mk "e1" "w1" "l1" "Old" 0 60000 "misc" "couple" "system" "Couple"
        "tentative" true none] ∧
     (ServerEvent.id (ServerEvent.mk "e1" "w1" "l1" "Old" 0 60000 "misc" "couple" "system"
        "Couple" "tentative" true none)) = "e1" ∧
     (ServerEvent.locked (ServerEvent.mk "e1" "w1" "l1" "Old" 0 60000 "misc" "couple" "system"
        "Couple" "tentative" true none)) = true) ∧
    ((applyPatchOp "w1" (.update_event_title "e1" "New") 0 86400000
        [ServerEvent.mk "e1" "w1" "l1" "Old" 0 60000 "misc" "couple" "system" "Couple"
          "tentative" true none] []).1 = none ∧
     { ServerEvent.mk "e1" "w1" "l1" "Old" 0 60000 "misc" "couple" "system" "Couple"
         "tentative" true none with title := "New" } ∈
       (applyPatchOp "w1" (.update_event_title "e1" "New") 0 86400000
         [ServerEvent.mk "e1" "w1" "l1" "Old" 0 60000 "misc" "couple" "system" "Couple"
           "tentative" true none] []).2.1) ∧
    ((applyPatchOp "w1" (.delete_event "e1") 0 86400000
        [ServerEvent.mk "e1" "w1" "l1" "Old" 0 60000 "misc" "couple" "system" "Couple"
          "tentative" true none] []).1 = none ∧
     (ServerEvent.mk "e1" "w1" "l1" "Old" 0 60000 "misc" "couple" "system" "Couple"
        "tentative" true none) ∉
       (applyPatchOp "w1" (.delete_event "e1") 0 86400000
         [ServerEvent.mk "e1" "w1" "l1" "Old" 0 60000 "misc" "couple" "system" "Couple"
           "tentative" true none] []).2.1) := by
  have hmain := locked_event_edits_not_rejected "w1" "e1" "New" 0 86400000
    [ServerEvent.mk "e1" "w1" "l1" "Old" 0 60000 "misc" "couple" "system" "Couple"
      "tentative" true none] []
    (ServerEvent.mk "e1" "w1" "l1" "Old" 0 60000 "misc" "couple" "system" "Couple"
      "tentative" true none)
    (by decide) (by decide) (by decide)
  exact ⟨⟨by decide, by decide, by decide⟩, hmain.1, hmain.2⟩

/-- C1 (counterexample): publish is not all-or-nothing.  With matching
`baseVersion`, the batch `[create_event e2, update_event_title "ghost"]`
fails on its second op (unknown id), yet the event created by the first op
remains in canonical state: the canonical events after the failed publish
differ from those before it. -/
theorem publish_not_atomic_cex :
    (put americaNewYorkOffsetMin
        ⟨"w1", (2026, 10, 17), 3,
          [⟨"l1", "w1", "Main", "ceremony", "couple", "system", "Couple", 0⟩], []⟩
        3
        [.create_event ⟨"e2", "Toast", utcMs 2026 10 17 18, utcMs 2026 10 17 19, "l1",
           none, none, none, false, none⟩,
         .update_event_title "ghost" "X"]).1 = .serverError ∧
    (put americaNewYorkOffsetMin
        ⟨"w1", (2026, 10, 17), 3,
          [⟨"l1", "w1", "Main", "ceremony", "couple", "system", "Couple", 0⟩], []⟩
        3
        [.create_event ⟨"e2", "Toast", utcMs 2026 10 17 18, utcMs 2026 10 17 19, "l1",
           none, none, none, false, none⟩,
         .update_event_title "ghost" "X"]).2.events ≠ ([] : List ServerEvent) ∧
    (put americaNewYorkOffsetMin
        ⟨"w1", (2026, 10, 17), 3,
          [⟨"l1", "w1", "Main", "ceremony", "couple", "system", "Couple", 0⟩], []⟩
        3
        [.create_event ⟨"e2", "Toast", utcMs 2026 10 17 18, utcMs 2026 10 17 19, "l1",
           none, none, none, false, none⟩,
         .update_event_title "ghost" "X"]).2 ≠
      ⟨"w1", (2026, 10, 17), 3,
        [⟨"l1", "w1", "Main", "ceremony", "couple", "system", "Couple", 0⟩], []⟩ := by
  decide

/-- C1 (amended): when a version-matching publish contains a failing op,
the response is the 500 error and `timelineVersion` is not incremented,
but the writes of the ops applied before the failure persist in canonical
state (the op loop runs directly against the database with no enclosing
transaction): the final events/lanes are exactly the partially-applied
prefix state, not the original state. -/
theorem put_failure_keeps_prefix (zoneOffsetMin : Int → Int) (w : Wedding)
    (patchOps : List PatchOp) (err : DbError)
    (events2 : List ServerEvent) (lanes2 : List ServerLane)
    (happ : applyOps w.id patchOps
        (getTimelineWindow zoneOffsetMin w.weddingDate.1 w.weddingDate.2.1 w.weddingDate.2.2).1
        (getTimelineWindow zoneOffsetMin w.weddingDate.1 w.weddingDate.2.1 w.weddingDate.2.2).2
        w.events w.lanes = (some err, events2, lanes2)) :
    put zoneOffsetMin w w.timelineVersion patchOps =
      (.serverError, { w with events := events2, lanes := lanes2 }) ∧
    (put zoneOffsetMin w w.timelineVersion patchOps).2.timelineVersion = w.timelineVersion := by
  have hput : put zoneOffsetMin w w.timelineVersion patchOps =
      (.serverError, { w with events := events2, lanes := lanes2 }) := by
    unfold put
    rw [if_neg (fun hh => hh rfl)]
    simp only [happ]
  exact ⟨hput, by rw [hput]⟩

/-- C1 (amended, witness): the two-op batch of the counterexample — the
`create_event` prefix persists, the version stays 3, the response is the
error. -/
theorem put_failure_keeps_prefix_witness :
    applyOps "w1"
        [.create_event ⟨"e2", "Toast", utcMs 2026 10 17 18, utcMs 2026 10 17 19, "l1",
           none, none, none, false, none⟩,
         .update_event_title "ghost" "X"]
        (getTimelineWindow americaNewYorkOffsetMin 2026 10 17).1
        (getTimelineWindow americaNewYorkOffsetMin 2026 10 17).2
        [] [⟨"l1", "w1", "Main", "ceremony", "couple", "system", "Couple", 0⟩] =
      (some .recordNotFound,
       [⟨"e2", "w1", "l1", "Toast", utcMs 2026 10 17 18, utcMs 2026 10 17 19, "misc",
         "couple", "system", "Couple", "tentative", false, none⟩],
       [⟨"l1", "w1", "Main", "ceremony", "couple", "system", "Couple", 0⟩]) ∧
    put americaNewYorkOffsetMin
        ⟨"w1", (2026, 10, 17), 3,
          [⟨"l1", "w1", "Main", "ceremony", "couple", "system", "Couple", 0⟩], []⟩
        3
        [.create_event ⟨"e2", "Toast", utcMs 2026 10 17 18, utcMs 2026 10 17 19, "l1",
           none, none, none, false, none⟩,
         .update_event_title "ghost" "X"] =
      (.serverError,
       ⟨"w1", (2026, 10, 17), 3,
         [⟨"l1", "w1", "Main", "ceremony", "couple", "system", "Couple", 0⟩],
         [⟨"e2", "w1", "l1", "Toast", utcMs 2026 10 17 18, utcMs 2026 10 17 19, "misc",
           "couple", "system", "Couple", "tentative", false, none⟩]⟩) ∧
    (put americaNewYorkOffsetMin
        ⟨"w1", (2026, 10, 17), 3,
          [⟨"l1", "w1", "Main", "ceremony", "couple", "system", "Couple", 0⟩], []⟩
        3
        [.create_event ⟨"e2", "Toast", utcMs 2026 10 17 18, utcMs 2026 10 17 19, "l1",
           none, none, none, false, none⟩,
         .update_event_title "ghost" "X"]).2.timelineVersion = 3 := by
  have happ : applyOps "w1"
      [.create_event ⟨"e2", "Toast", utcMs 2026 10 17 18, utcMs 2026 10 17 19, "l1",
         none, none, none, false, none⟩,
       .update_event_title "ghost" "X"]
      (getTimelineWindow americaNewYorkOffsetMin 2026 10 17).1
      (getTimelineWindow americaNewYorkOffsetMin 2026 10 17).2
      [] [⟨"l1", "w1", "Main", "ceremony", "couple", "system", "Couple", 0⟩] =
      (some .recordNotFound,
       [⟨"e2", "w1", "l1", "Toast", utcMs 2026 10 17 18, utcMs 2026 10 17 19, "misc",
         "couple", "system", "Couple", "tentative", false, none⟩],
       [⟨"l1", "w1", "Main", "ceremony", "couple", "system", "Couple", 0⟩]) := by
    decide
  have hmain := put_failure_keeps_prefix americaNewYorkOffsetMin
    ⟨"w1", (2026, 10, 17), 3,
      [⟨"l1", "w1", "Main", "ceremony", "couple", "system", "Couple", 0⟩], []⟩
    [.create_event ⟨"e2", "Toast", utcMs 2026 10 17 18, utcMs 2026 10 17 19, "l1",
       none, none, none, false, none⟩,
     .update_event_title "ghost" "X"]
    .recordNotFound
    [⟨"e2", "w1", "l1", "Toast", utcMs 2026 10 17 18, utcMs 2026 10 17 19, "misc",
      "couple", "system", "Couple", "tentative", false, none⟩]
    [⟨"l1", "w1", "Main", "ceremony", "couple", "system", "Couple", 0⟩]
    happ
  exact ⟨happ, hmain.1, hmain.2⟩

end WeddingApp
